import Mathlib

/-!
Shallow embedding of the boss repository request-addressing and cutout-decoding
core, covering `django/bosscore/lookup.py` (the KeySpace) and
`django/bossspatialdb/parsers.py` (the three wire-encoding decode paths),
together with theorems settling the specification claims about them.
-/

namespace Boss

/- ### KeySpace: django/bosscore/lookup.py -/

/-- One row of the BossLookup store, as assembled in `lookup_data` inside
`LookUpKey.add_lookup`: the key pair plus the three name columns. -/
structure LookupRecord where
  lookup_key : String
  boss_key : String
  collection_name : Option String
  experiment_name : Option String
  channel_layer_name : Option String
deriving DecidableEq, Repr

/-- Decimal numeral of a natural number: embeds the Python expression
`str(time)` for the loop variable `time : Nat` in `add_lookup`. -/
def natStr (n : Nat) : String :=
  if n = 0 then "0" else ⟨((Nat.digits 10 n).reverse.map Nat.digitChar)⟩

/-- Python truthiness of an optional string argument (absent and the empty
string are falsy), as tested by the guard in `add_lookup`. -/
def truthyStr : Option String → Bool
  | none => false
  | some s => !(s == "")

/-- Python truthiness of the optional `max_time_sample` argument (absent and
`0` are falsy), as tested by the guard in `add_lookup`. -/
def truthyNat : Option Nat → Bool
  | none => false
  | some n => !(n == 0)

/-- Whether two records carry the same lookup_key/boss_key pair. -/
def samePair (p r : LookupRecord) : Bool :=
  p.lookup_key == r.lookup_key && p.boss_key == r.boss_key

/-- Modelled from the spec: `BossLookupSerializer` and the `BossLookup` model
are not among the sources (only this caller is).  Per the spec, the underlying
store must reject overwrites of the base mapping when a record for the exact
lookup_key/boss_key pair already exists, so validation succeeds exactly when
no record with the same key pair is present. -/
def serializer_is_valid (store : List LookupRecord) (r : LookupRecord) : Bool :=
  !(store.any (fun p => samePair p r))

/-- The record built on iteration `t` of the time-expansion loop of
`add_lookup`: both keys are the base keys with `&<t>` appended, the three
name columns are unchanged. -/
def timeRec (lookup_key boss_key : String)
    (collection_name experiment_name channel_layer_name : Option String)
    (t : Nat) : LookupRecord :=
  ⟨lookup_key ++ "&" ++ natStr t, boss_key ++ "&" ++ natStr t,
   collection_name, experiment_name, channel_layer_name⟩

/-- One iteration of the time-expansion loop: validate the serializer on the
current store and save the record only when valid (mirroring
`if serializer.is_valid(): serializer.save()`). -/
def timeStep (rec : Nat → LookupRecord) (st : List LookupRecord) (t : Nat) :
    List LookupRecord :=
  if serializer_is_valid st (rec t) then st ++ [rec t] else st

/-- `LookUpKey.add_lookup`: save the base record when the serializer accepts
it; then, when `collection_name and experiment_name and channel_layer_name
and max_time_sample` is truthy, save one record per `time in
range(max_time_sample + 1)` with `&<time>` appended to both base keys.
The function always returns (Python returns `None`); an invalid serializer is
silently skipped. -/
def add_lookup (store : List LookupRecord) (lookup_key boss_key : String)
    (collection_name experiment_name channel_layer_name : Option String)
    (max_time_sample : Option Nat) : List LookupRecord :=
  let base : LookupRecord :=
    ⟨lookup_key, boss_key, collection_name, experiment_name, channel_layer_name⟩
  if serializer_is_valid store base then
    let store1 := store ++ [base]
    if truthyStr collection_name && truthyStr experiment_name &&
        truthyStr channel_layer_name && truthyNat max_time_sample then
      (List.range (max_time_sample.getD 0 + 1)).foldl
        (timeStep (timeRec lookup_key boss_key collection_name experiment_name
          channel_layer_name))
        store1
    else store1
  else store

/-- Outcome of `BossLookup.objects.get(boss_key=bkey)`: the unique matching
record, or the DoesNotExist failure, or the MultipleObjectsReturned failure. -/
inductive GetResult where
  | found (r : LookupRecord)
  | notFound
  | multiple
deriving DecidableEq, Repr

/-- `LookUpKey.get_lookup_key`: exact-match retrieval by the whole boss key. -/
def get_lookup_key (store : List LookupRecord) (bkey : String) : GetResult :=
  match store.filter (fun r => r.boss_key == bkey) with
  | [] => GetResult.notFound
  | [r] => GetResult.found r
  | _ => GetResult.multiple

/- ### CutoutCodec: django/bossspatialdb/parsers.py -/

/-- The validated time range of a request, `req.get_time()`; its Python
length is `stop - start` (clamped at zero). -/
structure TimeRange where
  start : Nat
  stop : Nat
deriving DecidableEq, Repr

/-- The parts of a validated `BossRequest` the parsers consult:
`get_x_span`, `get_y_span`, `get_z_span`, `get_time`, `time_request`. -/
structure BossReq where
  x_span : Nat
  y_span : Nat
  z_span : Nat
  time : TimeRange
  time_request : Bool
deriving DecidableEq, Repr

/-- `is_too_large`: the uncompressed byte volume
`x_span * y_span * z_span * t_span * bit_depth / 8` (exact rational division,
embedding Python true division), divided by a further `4` exactly when
`bit_depth == 64`, compared against the configured ceiling
`settings.CUTOUT_MAX_SIZE`. -/
def is_too_large (req : BossReq) (bit_depth : Nat) (cutout_max_size : ℚ) : Bool :=
  let t_span := req.time.stop - req.time.start
  let total_bytes : ℚ :=
    (req.x_span : ℚ) * (req.y_span : ℚ) * (req.z_span : ℚ) * (t_span : ℚ) *
      (bit_depth : ℚ) / 8
  let total_bytes := if bit_depth == 64 then total_bytes / 4 else total_bytes
  decide (total_bytes > cutout_max_size)

/-- The WSGI request body stream handed to `parse`: the unread bytes, plus a
flag recording whether a call to `read()` raises instead of returning. -/
structure ReqStream where
  content : List Nat
  read_raises : Bool
deriving DecidableEq, Repr

/-- `stream.read()`: returns all remaining content and leaves the stream
empty, or raises (`none`) leaving the stream unread. -/
def streamRead (s : ReqStream) : Option (List Nat × ReqStream) :=
  if s.read_raises then none
  else some (s.content, { content := [], read_raises := false })

/-- `ConsumeReqMixin.consume_request`: read the whole stream and swallow any
exception the read raises (`try: stream.read() except: pass`). -/
def consume_request (s : ReqStream) : ReqStream :=
  match streamRead s with
  | some (_, s1) => s1
  | none => s

/-- The error codes of `bosscore.error.ErrorCodes` the parsers use. -/
inductive ErrorCode where
  | UNHANDLED_EXCEPTION
  | TYPE_ERROR
  | REQUEST_TOO_LARGE
  | BOSS_SYSTEM_ERROR
  | DATATYPE_DOES_NOT_MATCH
  | DATA_DIMENSION_MISMATCH
deriving DecidableEq, Repr

/-- Outcome of building the `BossRequest` from the URL kwargs: success, a
`BossError` carrying a message and code, or any other exception. -/
inductive ValidationOutcome where
  | ok (req : BossReq)
  | bossErr (msg : String) (code : ErrorCode)
  | exc (msg : String)
deriving DecidableEq, Repr

/-- Outcome of `blosc.decompress` followed by `np.fromstring` on the raw
payload bytes: a flat element buffer, a MemoryError, or any other
exception (corrupt stream, codec parse failure). -/
inductive DecompResult where
  | ok (flat : List Nat)
  | memErr
  | err
deriving DecidableEq, Repr

/-- An N-dimensional numpy array: its shape and its row-major flat data.
Element values are abstracted as naturals. -/
structure NDArray where
  shape : List Nat
  data : List Nat
deriving DecidableEq, Repr

/-- Outcome of a self-describing unpack (`blosc.unpack_array`, or
`zlib.decompress` followed by `np.load`): an array, a MemoryError, an
EOFError, or any other exception (for instance `zlib.error` on a corrupt
deflate stream). -/
inductive UnpackResult where
  | ok (arr : NDArray)
  | memErr
  | eofErr
  | err
deriving DecidableEq, Repr

/-- Final result of a `parse` call: the `(req, resource, parsed_data)` success
tuple (the resource is determined by the request and elided), a returned
`BossParserError` value, or an exception propagating out of `parse`. -/
inductive ParseResult where
  | success (req : BossReq) (arr : NDArray)
  | error (msg : String) (code : ErrorCode)
  | uncaught
deriving DecidableEq, Repr

def tooLargeMsg : String :=
  "Cutout request is over 500MB when uncompressed. Reduce cutout dimensions."

def unsupportedMsg : String := "Unsupported data type provided to parser"

def memErrMsg : String := "Ran out of memory decompressing data."

def corruptMsg : String :=
  "Failed to decompress data. Verify the datatype/bitdepth of your data matches the channel."

def unpackErrMsg : String :=
  "Failed to unpack data. Verify the datatype of your POSTed data and xyz dimensions used in the POST URL."

/-- The reshape target passed to `np.reshape` by `BloscParser.parse`:
`(len(req.get_time()), z_span, y_span, x_span)` when `req.time_request`,
else `(z_span, y_span, x_span)`. -/
def target_dims (req : BossReq) : List Nat :=
  if req.time_request then
    [req.time.stop - req.time.start, req.z_span, req.y_span, req.x_span]
  else
    [req.z_span, req.y_span, req.x_span]

/-- `BloscParser.parse` (media type application/blosc), with the request
validation, the bit-depth lookup and the decompression step abstracted as
oracles and the stream threaded explicitly.  A raising `stream.read()` inside
the try block is a non-MemoryError exception caught by the bare `except`. -/
def bloscParse (v : ValidationOutcome) (bitDepth : Option Nat) (maxSize : ℚ)
    (decomp : List Nat → DecompResult) (s : ReqStream) : ParseResult × ReqStream :=
  match v with
  | .bossErr msg code => (.error msg code, consume_request s)
  | .exc msg => (.error msg .UNHANDLED_EXCEPTION, consume_request s)
  | .ok req =>
    match bitDepth with
    | none => (.error unsupportedMsg .TYPE_ERROR, s)
    | some bd =>
      if is_too_large req bd maxSize then
        (.error tooLargeMsg .REQUEST_TOO_LARGE, s)
      else
        match streamRead s with
        | none => (.error corruptMsg .DATATYPE_DOES_NOT_MATCH, s)
        | some (bytes, s1) =>
          match decomp bytes with
          | .memErr => (.error memErrMsg .BOSS_SYSTEM_ERROR, s1)
          | .err => (.error corruptMsg .DATATYPE_DOES_NOT_MATCH, s1)
          | .ok flat =>
            if flat.length = (target_dims req).prod then
              (.success req ⟨target_dims req, flat⟩, s1)
            else
              (.error unpackErrMsg .DATA_DIMENSION_MISMATCH, s1)

/-- `BloscPythonParser.parse` (media type application/blosc-python): the
unsupported-datatype and too-large paths call `consume_request`; around
`blosc.unpack_array` only MemoryError and EOFError are caught, anything else
(including a raising `stream.read()`) propagates out of `parse`. -/
def bloscPythonParse (v : ValidationOutcome) (bitDepth : Option Nat) (maxSize : ℚ)
    (unpack : List Nat → UnpackResult) (s : ReqStream) : ParseResult × ReqStream :=
  match v with
  | .bossErr msg code => (.error msg code, consume_request s)
  | .exc msg => (.error msg .UNHANDLED_EXCEPTION, consume_request s)
  | .ok req =>
    match bitDepth with
    | none => (.error unsupportedMsg .TYPE_ERROR, consume_request s)
    | some bd =>
      if is_too_large req bd maxSize then
        (.error tooLargeMsg .REQUEST_TOO_LARGE, consume_request s)
      else
        match streamRead s with
        | none => (.uncaught, s)
        | some (bytes, s1) =>
          match unpack bytes with
          | .ok arr => (.success req arr, s1)
          | .memErr => (.error memErrMsg .BOSS_SYSTEM_ERROR, s1)
          | .eofErr => (.error unpackErrMsg .DATA_DIMENSION_MISMATCH, s1)
          | .err => (.uncaught, s1)

/-- `NpygzParser.parse` (media type application/npygz): same control flow as
`BloscPythonParser.parse`; its unpack step is `zlib.decompress` followed by
`np.load`, so a corrupt deflate stream raises `zlib.error`, which is neither
MemoryError nor EOFError and propagates out of `parse`. -/
def npygzParse (v : ValidationOutcome) (bitDepth : Option Nat) (maxSize : ℚ)
    (unpack : List Nat → UnpackResult) (s : ReqStream) : ParseResult × ReqStream :=
  match v with
  | .bossErr msg code => (.error msg code, consume_request s)
  | .exc msg => (.error msg .UNHANDLED_EXCEPTION, consume_request s)
  | .ok req =>
    match bitDepth with
    | none => (.error unsupportedMsg .TYPE_ERROR, consume_request s)
    | some bd =>
      if is_too_large req bd maxSize then
        (.error tooLargeMsg .REQUEST_TOO_LARGE, consume_request s)
      else
        match streamRead s with
        | none => (.uncaught, s)
        | some (bytes, s1) =>
          match unpack bytes with
          | .ok arr => (.success req arr, s1)
          | .memErr => (.error memErrMsg .BOSS_SYSTEM_ERROR, s1)
          | .eofErr => (.error unpackErrMsg .DATA_DIMENSION_MISMATCH, s1)
          | .err => (.uncaught, s1)

/- ### Helper lemmas -/

theorem digitChar_inj_lt : ∀ d < 10, ∀ e < 10, Nat.digitChar d = Nat.digitChar e → d = e := by
  decide

theorem map_digitChar_inj : ∀ (l l2 : List Nat), (∀ d ∈ l, d < 10) → (∀ d ∈ l2, d < 10) →
    l.map Nat.digitChar = l2.map Nat.digitChar → l = l2
  | [], [], _, _, _ => rfl
  | [], _ :: _, _, _, h => by simp at h
  | _ :: _, [], _, _, h => by simp at h
  | d :: l, e :: l2, h1, h2, h => by
    simp only [List.map_cons, List.cons.injEq] at h
    have hde : d = e :=
      digitChar_inj_lt d (h1 d (by simp)) e (h2 e (by simp)) h.1
    have hll : l = l2 :=
      map_digitChar_inj l l2 (fun x hx => h1 x (by simp [hx]))
        (fun x hx => h2 x (by simp [hx])) h.2
    rw [hde, hll]

theorem digits_all_lt (n : Nat) : ∀ d ∈ Nat.digits 10 n, d < 10 :=
  fun _ hd => Nat.digits_lt_base (by norm_num) hd

theorem natStr_zero_ne (n : Nat) (hn : n ≠ 0) : natStr n ≠ "0" := by
  intro h
  unfold natStr at h
  rw [if_neg hn] at h
  have hd := congrArg String.data h
  have hd2 : (Nat.digits 10 n).reverse.map Nat.digitChar = ['0'] := hd
  rcases hrev : (Nat.digits 10 n).reverse with _ | ⟨d, rest⟩
  · rw [hrev] at hd2; simp at hd2
  · rw [hrev] at hd2
    rcases rest with _ | ⟨d2, rest2⟩
    · simp only [List.map_cons, List.map_nil, List.cons.injEq, and_true] at hd2
      have hdm : d ∈ Nat.digits 10 n := by
        have : d ∈ (Nat.digits 10 n).reverse := by rw [hrev]; simp
        simpa using this
      have hd0 : d = 0 :=
        digitChar_inj_lt d (digits_all_lt n d hdm) 0 (by norm_num) (by simpa using hd2)
      have hsingle : Nat.digits 10 n = [0] := by
        have h2 := congrArg List.reverse hrev
        simpa [hd0] using h2
      have h3 := Nat.ofDigits_digits 10 n
      rw [hsingle] at h3
      simp [Nat.ofDigits] at h3
      exact hn h3.symm
    · simp at hd2

theorem natStr_inj : ∀ {m n : Nat}, natStr m = natStr n → m = n := by
  intro m n h
  by_cases hm : m = 0 <;> by_cases hn : n = 0
  · exact hm.trans hn.symm
  · exfalso
    apply natStr_zero_ne n hn
    rw [← h, natStr, if_pos hm]
  · exfalso
    apply natStr_zero_ne m hm
    rw [h, natStr, if_pos hn]
  · unfold natStr at h
    rw [if_neg hm, if_neg hn] at h
    have hd : (Nat.digits 10 m).reverse.map Nat.digitChar
        = (Nat.digits 10 n).reverse.map Nat.digitChar := congrArg String.data h
    have hrev := map_digitChar_inj _ _
      (fun d hdm => digits_all_lt m d (by simpa using hdm))
      (fun d hdn => digits_all_lt n d (by simpa using hdn)) hd
    have hdig : Nat.digits 10 m = Nat.digits 10 n := by
      have h2 := congrArg List.reverse hrev
      simpa using h2
    exact Nat.digits_inj_iff.mp hdig

theorem append_natStr_inj (s : String) {t u : Nat}
    (h : s ++ "&" ++ natStr t = s ++ "&" ++ natStr u) : t = u := by
  apply natStr_inj (m := t) (n := u)
  have hd := congrArg String.data h
  simp only [String.data_append] at hd
  exact String.ext (List.append_cancel_left hd)

theorem append_natStr_ne (s : String) (t : Nat) : s ++ "&" ++ natStr t ≠ s := by
  intro h
  have h2 := congrArg String.length h
  rw [String.length_append, String.length_append] at h2
  have h3 : ("&" : String).length = 1 := rfl
  omega

theorem foldl_timeStep_filter (rec : Nat → LookupRecord) (pred : LookupRecord → Bool)
    (hpred : ∀ t, pred (rec t) = false) :
    ∀ (l : List Nat) (init : List LookupRecord),
      (List.foldl (timeStep rec) init l).filter pred = init.filter pred := by
  intro l
  induction l with
  | nil => intro init; rfl
  | cons t ts ih =>
    intro init
    simp only [List.foldl_cons]
    rw [ih]
    unfold timeStep
    cases hv : serializer_is_valid init (rec t) <;>
      simp [hv, List.filter_append, hpred t]

theorem mem_foldl_timeStep (rec : Nat → LookupRecord) :
    ∀ (l : List Nat) (init : List LookupRecord) (r : LookupRecord),
      r ∈ List.foldl (timeStep rec) init l → r ∈ init ∨ ∃ t ∈ l, r = rec t := by
  intro l
  induction l with
  | nil => intro init r h; exact Or.inl h
  | cons t ts ih =>
    intro init r h
    simp only [List.foldl_cons] at h
    rcases ih _ r h with h1 | ⟨u, hu, hr⟩
    · unfold timeStep at h1
      cases hv : serializer_is_valid init (rec t) <;> rw [hv] at h1
      · simp only [Bool.false_eq_true, if_false] at h1
        exact Or.inl h1
      · simp only [if_true, List.mem_append, List.mem_singleton] at h1
        rcases h1 with h1 | h1
        · exact Or.inl h1
        · exact Or.inr ⟨t, by simp, h1⟩
    · exact Or.inr ⟨u, by simp [hu], hr⟩

theorem foldl_timeStep_all (rec : Nat → LookupRecord)
    (hinj : ∀ t u, samePair (rec t) (rec u) = true → t = u) :
    ∀ (l : List Nat) (init : List LookupRecord), l.Nodup →
      (∀ t ∈ l, ∀ p ∈ init, samePair p (rec t) = false) →
      List.foldl (timeStep rec) init l = init ++ l.map rec := by
  intro l
  induction l with
  | nil => intro init _ _; simp
  | cons t ts ih =>
    intro init hnd hfresh
    simp only [List.foldl_cons, List.map_cons]
    have hv : serializer_is_valid init (rec t) = true := by
      unfold serializer_is_valid
      simp only [Bool.not_eq_true', List.any_eq_false]
      intro p hp
      simp [hfresh t (by simp) p hp]
    rw [timeStep, if_pos hv]
    rw [ih (init ++ [rec t]) (List.nodup_cons.mp hnd).2 ?_]
    · simp
    · intro u hu p hp
      rcases List.mem_append.mp hp with hp1 | hp2
      · exact hfresh u (by simp [hu]) p hp1
      · have hpt : p = rec t := by simpa using hp2
        subst hpt
        cases hsp : samePair (rec t) (rec u)
        · rfl
        · exact absurd ((hinj t u hsp) ▸ hu) (List.nodup_cons.mp hnd).1

/- ### Claim theorems -/

/-- C3 (counterexample): repeating the same `add_lookup` call twice does NOT
fail with a DuplicateKey error.  The second call finds the serializer invalid
(the store rejects the duplicate pair), silently skips the save, and returns
normally (`add_lookup` is total and returns the store; the Python function
returns None on every path and raises nothing): the claimed DuplicateKey
failure never occurs, although the existing base record is indeed left
intact. -/
theorem C3_counterexample :
    add_lookup (add_lookup [] "1" "col1" (some "col1") none none none)
        "1" "col1" (some "col1") none none none
      = add_lookup [] "1" "col1" (some "col1") none none none
    ∧ add_lookup [] "1" "col1" (some "col1") none none none
      = [⟨"1", "col1", some "col1", none, none⟩] := by
  constructor <;> decide

/-- C3 (amended): when a record with the exact lookup_key/boss_key pair is
already in the store, `add_lookup` leaves the store completely unchanged — the
existing base mapping is not overwritten — and completes silently without
surfacing any DuplicateKey error (`serializer.is_valid()` is false and the
save is skipped). -/
theorem C3_amended (store : List LookupRecord) (lk bk : String)
    (c e ch : Option String) (mts : Option Nat)
    (hdup : ∃ r ∈ store, r.lookup_key = lk ∧ r.boss_key = bk) :
    add_lookup store lk bk c e ch mts = store := by
  obtain ⟨r, hr, h1, h2⟩ := hdup
  unfold add_lookup
  have hval : serializer_is_valid store ⟨lk, bk, c, e, ch⟩ = false := by
    unfold serializer_is_valid
    simp only [Bool.not_eq_false']
    exact List.any_eq_true.mpr ⟨r, hr, by simp [samePair, h1, h2]⟩
  simp [hval]

/-- C3 (witness): the amended theorem applied to a concrete one-record store
holding the exact pair being re-added. -/
theorem C3_witness :
    (∃ r ∈ [(⟨"1", "col1", some "col1", none, none⟩ : LookupRecord)],
        r.lookup_key = "1" ∧ r.boss_key = "col1")
    ∧ add_lookup [⟨"1", "col1", some "col1", none, none⟩]
        "1" "col1" (some "col1") none none none
      = [⟨"1", "col1", some "col1", none, none⟩] :=
  ⟨⟨⟨"1", "col1", some "col1", none, none⟩, by simp, rfl, rfl⟩,
    C3_amended _ _ _ _ _ _ _
      ⟨⟨"1", "col1", some "col1", none, none⟩, by simp, rfl, rfl⟩⟩

/-- C4 (counterexample): with all three names present and
`maxTimeSample = 0`, the claim demands exactly one time-indexed record
(t = 0) in addition to the base record, but `add_lookup` creates none: the
guard tests the Python truthiness of `max_time_sample`, and `0` is falsy, so
the time-expansion loop is skipped entirely and only the base record is
stored. -/
theorem C4_counterexample :
    add_lookup [] "1&1&1" "c&e&ch" (some "c") (some "e") (some "ch") (some 0)
      = [⟨"1&1&1", "c&e&ch", some "c", some "e", some "ch"⟩] := by
  decide

/-- Full description of `add_lookup` on the empty store with all time-series
arguments truthy: the base record followed by one time record per
`t ∈ 0..N`. -/
theorem add_lookup_empty_eq (lk bk : String) (c e ch : String) (N : Nat)
    (hc : c ≠ "") (he : e ≠ "") (hch : ch ≠ "") (hN : 1 ≤ N) :
    add_lookup [] lk bk (some c) (some e) (some ch) (some N)
      = ⟨lk, bk, some c, some e, some ch⟩ ::
        (List.range (N + 1)).map (timeRec lk bk (some c) (some e) (some ch)) := by
  unfold add_lookup
  have hbase : serializer_is_valid [] ⟨lk, bk, some c, some e, some ch⟩ = true := by
    simp [serializer_is_valid]
  have hguard : (truthyStr (some c) && truthyStr (some e) &&
      truthyStr (some ch) && truthyNat (some N)) = true := by
    have hN0 : N ≠ 0 := by omega
    simp [truthyStr, truthyNat, hc, he, hch, hN0]
  rw [if_pos hbase, if_pos hguard]
  simp only [Option.getD_some, List.nil_append]
  rw [foldl_timeStep_all (timeRec lk bk (some c) (some e) (some ch))
    (fun t u hsp => by
      simp only [timeRec, samePair, Bool.and_eq_true, beq_iff_eq] at hsp
      exact append_natStr_inj lk hsp.1)
    (List.range (N + 1)) _ (List.nodup_range _)
    (fun t _ p hp => by
      have hpb : p = (⟨lk, bk, some c, some e, some ch⟩ : LookupRecord) := by
        simpa using hp
      subst hpb
      simp only [timeRec, samePair]
      have hne : lk ≠ lk ++ "&" ++ natStr t := fun h => append_natStr_ne lk t h.symm
      simp [hne])]
  rfl

/-- C4 (amended): for every `N ≥ 1` and nonempty collection, experiment and
channel names, `add_lookup` on a fresh store creates, in addition to the base
record, exactly `N + 1` time-indexed records, one per time value
`t ∈ 0..N` inclusive, each formed by appending `&<t>` to the base lookup and
boss keys (not to the previous time record's keys); for `maxTimeSample = 0`
no time records are created (the truthiness guard skips the loop). -/
theorem C4_amended (lk bk : String) (c e ch : String) (N : Nat)
    (hc : c ≠ "") (he : e ≠ "") (hch : ch ≠ "") (hN : 1 ≤ N) :
    add_lookup [] lk bk (some c) (some e) (some ch) (some N)
      = ⟨lk, bk, some c, some e, some ch⟩ ::
        (List.range (N + 1)).map (timeRec lk bk (some c) (some e) (some ch)) :=
  add_lookup_empty_eq lk bk c e ch N hc he hch hN

/-- C4 (witness): the amended theorem applied at `N = 1` with concrete
nonempty names. -/
theorem C4_witness :
    ("c" : String) ≠ "" ∧ ("e" : String) ≠ "" ∧ ("h" : String) ≠ "" ∧ 1 ≤ 1
    ∧ add_lookup [] "a" "b" (some "c") (some "e") (some "h") (some 1)
      = ⟨"a", "b", some "c", some "e", some "h"⟩ ::
        (List.range 2).map (timeRec "a" "b" (some "c") (some "e") (some "h")) :=
  ⟨by decide, by decide, by decide, by decide,
    C4_amended "a" "b" "c" "e" "h" 1 (by decide) (by decide) (by decide) (by decide)⟩

/-- C5: after `add_lookup` writes a base pair whose boss key is new to the
store, `get_lookup_key` on that boss key returns exactly the record carrying
the written lookup key, and `get_lookup_key` on any time-expanded boss key
`bk&t` written in the same call returns exactly the record carrying `lk&t`;
lookup is by exact whole-string match, so a boss key with no record resolves
to the DoesNotExist failure, and in particular `col1` never resolves a record
stored under `col1-22`. -/
theorem C5_resolve_exact (store : List LookupRecord) (lk bk : String)
    (c e ch : Option String) (mts : Option Nat)
    (hfresh : store.filter (fun r => r.boss_key == bk) = []) :
    get_lookup_key (add_lookup store lk bk c e ch mts) bk
        = GetResult.found ⟨lk, bk, c, e, ch⟩
    ∧ get_lookup_key store bk = GetResult.notFound
    ∧ get_lookup_key [⟨"1", "col1-22", none, none, none⟩] "col1"
        = GetResult.notFound
    ∧ ∀ (lk2 bk2 : String) (c2 e2 ch2 : String) (N t : Nat),
        c2 ≠ "" → e2 ≠ "" → ch2 ≠ "" → 1 ≤ N → t < N + 1 →
        get_lookup_key
            (add_lookup [] lk2 bk2 (some c2) (some e2) (some ch2) (some N))
            (bk2 ++ "&" ++ natStr t)
          = GetResult.found (timeRec lk2 bk2 (some c2) (some e2) (some ch2) t) := by
  refine ⟨?_, ?_, by decide, ?_⟩
  · have hall : ∀ r ∈ store, (r.boss_key == bk) = false := by
      intro r hr
      have := List.filter_eq_nil_iff.mp hfresh r hr
      simpa using this
    have hbase : serializer_is_valid store ⟨lk, bk, c, e, ch⟩ = true := by
      unfold serializer_is_valid
      simp only [Bool.not_eq_true', List.any_eq_false]
      intro p hp
      simp [samePair, hall p hp]
    have hfilter :
        (add_lookup store lk bk c e ch mts).filter (fun r => r.boss_key == bk)
          = [⟨lk, bk, c, e, ch⟩] := by
      unfold add_lookup
      rw [if_pos hbase]
      have hstep : (store ++ [(⟨lk, bk, c, e, ch⟩ : LookupRecord)]).filter
          (fun r => r.boss_key == bk) = [⟨lk, bk, c, e, ch⟩] := by
        rw [List.filter_append, hfresh]
        simp
      cases hguard : (truthyStr c && truthyStr e && truthyStr ch && truthyNat mts)
      · simpa [hguard] using hstep
      · simp only [hguard, if_true]
        rw [foldl_timeStep_filter _ _ (fun t => by
          simp only [timeRec]
          have hne : bk ++ "&" ++ natStr t ≠ bk := append_natStr_ne bk t
          simp [hne])]
        exact hstep
    unfold get_lookup_key
    rw [hfilter]
  · unfold get_lookup_key
    rw [hfresh]
  · intro lk2 bk2 c2 e2 ch2 N t hc2 he2 hch2 hN ht
    rw [add_lookup_empty_eq lk2 bk2 c2 e2 ch2 N hc2 he2 hch2 hN]
    have hbase : ((⟨lk2, bk2, some c2, some e2, some ch2⟩ : LookupRecord).boss_key
        == bk2 ++ "&" ++ natStr t) = false := by
      have h1 : bk2 ≠ bk2 ++ "&" ++ natStr t :=
        fun h => append_natStr_ne bk2 t h.symm
      simpa using h1
    have hmap : ((List.range (N + 1)).map
          (timeRec lk2 bk2 (some c2) (some e2) (some ch2))).filter
          (fun r => r.boss_key == bk2 ++ "&" ++ natStr t)
        = [timeRec lk2 bk2 (some c2) (some e2) (some ch2) t] := by
      rw [List.filter_map]
      have hcongr : (List.range (N + 1)).filter
          ((fun r => r.boss_key == bk2 ++ "&" ++ natStr t) ∘
            timeRec lk2 bk2 (some c2) (some e2) (some ch2))
          = (List.range (N + 1)).filter (· == t) := by
        apply List.filter_congr
        intro u _
        simp only [Function.comp_apply, timeRec]
        by_cases hut : u = t
        · subst hut; simp
        · have hne : bk2 ++ "&" ++ natStr u ≠ bk2 ++ "&" ++ natStr t :=
            fun h => hut (append_natStr_inj bk2 h)
          simp [hne, hut]
      rw [hcongr, List.filter_beq]
      rw [List.count_eq_one_of_mem (List.nodup_range _) (List.mem_range.mpr ht)]
      rfl
    unfold get_lookup_key
    rw [List.filter_cons]
    simp only [hbase, Bool.false_eq_true, if_false]
    rw [hmap]

/-- C5 (witness): the theorem applied to the empty store with a concrete
pair. -/
theorem C5_witness :
    ([] : List LookupRecord).filter (fun r => r.boss_key == "col1") = []
    ∧ (get_lookup_key (add_lookup [] "1" "col1" (some "col1") none none none) "col1"
        = GetResult.found ⟨"1", "col1", some "col1", none, none⟩
      ∧ get_lookup_key [] "col1" = GetResult.notFound
      ∧ get_lookup_key [⟨"1", "col1-22", none, none, none⟩] "col1"
        = GetResult.notFound
      ∧ ∀ (lk2 bk2 : String) (c2 e2 ch2 : String) (N t : Nat),
          c2 ≠ "" → e2 ≠ "" → ch2 ≠ "" → 1 ≤ N → t < N + 1 →
          get_lookup_key
              (add_lookup [] lk2 bk2 (some c2) (some e2) (some ch2) (some N))
              (bk2 ++ "&" ++ natStr t)
            = GetResult.found (timeRec lk2 bk2 (some c2) (some e2) (some ch2) t)) :=
  ⟨rfl, C5_resolve_exact [] "1" "col1" (some "col1") none none none rfl⟩

/-- C10: every record `add_lookup` adds to the store is either the base record
or a time-indexed record `timeRec` built from the SAME collection, experiment
and channel names as the base record; the loop varies only the two key
fields. -/
theorem C10_new_records_form (store : List LookupRecord) (lk bk : String)
    (c e ch : Option String) (mts : Option Nat) (r : LookupRecord)
    (hr : r ∈ add_lookup store lk bk c e ch mts) :
    r ∈ store ∨ r = ⟨lk, bk, c, e, ch⟩
      ∨ ∃ t, t ≤ mts.getD 0 ∧ r = timeRec lk bk c e ch t := by
  simp only [add_lookup] at hr
  split at hr
  · split at hr
    · rcases mem_foldl_timeStep _ _ _ _ hr with h1 | ⟨t, ht, hrt⟩
      · rcases List.mem_append.mp h1 with h2 | h2
        · exact Or.inl h2
        · exact Or.inr (Or.inl (by simpa using h2))
      · refine Or.inr (Or.inr ⟨t, ?_, hrt⟩)
        have := List.mem_range.mp ht
        omega
    · rcases List.mem_append.mp hr with h2 | h2
      · exact Or.inl h2
      · exact Or.inr (Or.inl (by simpa using h2))
  · exact Or.inl hr

/-- C10 (witness): the theorem applied to the base record of a concrete
call. -/
theorem C10_witness :
    (⟨"1", "col1", some "col1", none, none⟩ : LookupRecord) ∈
        add_lookup [] "1" "col1" (some "col1") none none none
    ∧ ((⟨"1", "col1", some "col1", none, none⟩ : LookupRecord) ∈ ([] : List LookupRecord)
      ∨ (⟨"1", "col1", some "col1", none, none⟩ : LookupRecord)
          = ⟨"1", "col1", some "col1", none, none⟩
      ∨ ∃ t, t ≤ (none : Option Nat).getD 0
          ∧ (⟨"1", "col1", some "col1", none, none⟩ : LookupRecord)
            = timeRec "1" "col1" (some "col1") none none t) :=
  ⟨by decide,
    C10_new_records_form [] "1" "col1" (some "col1") none none none
      ⟨"1", "col1", some "col1", none, none⟩ (by decide)⟩

/-- A validated request whose uncompressed volume (100*100*100*1 bytes at
8-bit depth) exceeds a ceiling of 10 bytes. -/
def bigReq : BossReq := ⟨100, 100, 100, ⟨0, 1⟩, false⟩

/-- A small validated request with spans 2*2*2 and a single default time
sample, far under a ceiling of 1000000 bytes at 8-bit depth. -/
def smallReq : BossReq := ⟨2, 2, 2, ⟨0, 1⟩, false⟩

theorem bigReq_too_large : is_too_large bigReq 8 10 = true := by
  simp only [is_too_large, bigReq, decide_eq_true_eq]
  norm_num

theorem smallReq_not_too_large : is_too_large smallReq 8 1000000 = false := by
  simp only [is_too_large, smallReq, decide_eq_false_iff_not]
  norm_num

/-- C1 (code contradicts its own documentation): `ConsumeReqMixin` exists
precisely to ensure the request is entirely consumed when exiting `parse`
early on an error, and the two sibling parsers call it on every early error
return, but `BloscParser.parse` returns its unsupported-datatype and
request-too-large errors WITHOUT calling `consume_request`: at these concrete
inputs the returned stream still carries its unread content [1,2,3], while
`BloscPythonParser.parse` at the same too-large input drains the stream. -/
theorem C1_code_bug_eval :
    bloscParse (.ok bigReq) (some 8) 10 (fun _ => .ok []) ⟨[1, 2, 3], false⟩
        = (.error tooLargeMsg .REQUEST_TOO_LARGE, ⟨[1, 2, 3], false⟩)
    ∧ bloscParse (.ok bigReq) none 10 (fun _ => .ok []) ⟨[1, 2, 3], false⟩
        = (.error unsupportedMsg .TYPE_ERROR, ⟨[1, 2, 3], false⟩)
    ∧ bloscPythonParse (.ok bigReq) (some 8) 10 (fun _ => .ok ⟨[], []⟩) ⟨[1, 2, 3], false⟩
        = (.error tooLargeMsg .REQUEST_TOO_LARGE, ⟨[], false⟩)
    ∧ (⟨[1, 2, 3], false⟩ : ReqStream).content ≠ [] := by
  refine ⟨?_, by decide, ?_, by decide⟩ <;>
    simp [bloscParse, bloscPythonParse, bigReq_too_large, consume_request, streamRead]

/-- C2: whenever `is_too_large` holds for the validated request and bit depth,
each of the three parsers returns the RequestTooLarge error, for EVERY
decompression oracle — so no decompression of the payload is consulted, and a
corrupt payload still yields RequestTooLarge, never the PayloadCorrupt
error. -/
theorem C2_too_large_fails_fast (req : BossReq) (bd : Nat) (m : ℚ)
    (decomp : List Nat → DecompResult) (unpack1 unpack2 : List Nat → UnpackResult)
    (s : ReqStream) (h : is_too_large req bd m = true) :
    bloscParse (.ok req) (some bd) m decomp s
        = (.error tooLargeMsg .REQUEST_TOO_LARGE, s)
    ∧ bloscPythonParse (.ok req) (some bd) m unpack1 s
        = (.error tooLargeMsg .REQUEST_TOO_LARGE, consume_request s)
    ∧ npygzParse (.ok req) (some bd) m unpack2 s
        = (.error tooLargeMsg .REQUEST_TOO_LARGE, consume_request s) := by
  refine ⟨?_, ?_, ?_⟩ <;> simp [bloscParse, bloscPythonParse, npygzParse, h]

/-- C2 (witness): the theorem applied to a concrete over-limit request with a
decompression oracle that reports the payload as corrupt: the result is still
the RequestTooLarge error. -/
theorem C2_witness :
    is_too_large bigReq 8 10 = true
    ∧ (bloscParse (.ok bigReq) (some 8) 10 (fun _ => .err) ⟨[7], false⟩
          = (.error tooLargeMsg .REQUEST_TOO_LARGE, ⟨[7], false⟩)
      ∧ bloscPythonParse (.ok bigReq) (some 8) 10 (fun _ => .err) ⟨[7], false⟩
          = (.error tooLargeMsg .REQUEST_TOO_LARGE, consume_request ⟨[7], false⟩)
      ∧ npygzParse (.ok bigReq) (some 8) 10 (fun _ => .err) ⟨[7], false⟩
          = (.error tooLargeMsg .REQUEST_TOO_LARGE, consume_request ⟨[7], false⟩)) :=
  ⟨bigReq_too_large,
    C2_too_large_fails_fast bigReq 8 10 (fun _ => .err) (fun _ => .err) (fun _ => .err)
      ⟨[7], false⟩ bigReq_too_large⟩

/-- C6: in the raw blosc decode path, once the flat buffer is decompressed it
is reshaped to `(tSpan, zSpan, ySpan, xSpan)` when time was requested and to
`(zSpan, ySpan, xSpan)` otherwise (row-major flat data kept as is), and
whenever the flat buffer's element count differs from the product of the
target dimensions the parser returns the ShapeMismatch error instead of an
array. -/
theorem C6_reshape (req : BossReq) (bd : Nat) (m : ℚ)
    (decomp : List Nat → DecompResult) (s s1 : ReqStream) (bytes flat : List Nat)
    (hlarge : is_too_large req bd m = false)
    (hread : streamRead s = some (bytes, s1))
    (hdec : decomp bytes = DecompResult.ok flat) :
    bloscParse (.ok req) (some bd) m decomp s
      = (if flat.length
            = (if req.time_request then
                [req.time.stop - req.time.start, req.z_span, req.y_span, req.x_span]
              else [req.z_span, req.y_span, req.x_span]).prod
        then ParseResult.success req
            ⟨if req.time_request then
                [req.time.stop - req.time.start, req.z_span, req.y_span, req.x_span]
              else [req.z_span, req.y_span, req.x_span], flat⟩
        else ParseResult.error unpackErrMsg ErrorCode.DATA_DIMENSION_MISMATCH, s1) := by
  simp only [bloscParse, hlarge, hread, hdec, target_dims, Bool.false_eq_true, if_false]
  split <;> split <;> rfl

/-- C6 (witness): the theorem applied to a concrete in-limit request whose
8-element flat buffer reshapes to (2, 2, 2). -/
theorem C6_witness :
    is_too_large smallReq 8 1000000 = false
    ∧ streamRead ⟨[5], false⟩ = some ([5], ⟨[], false⟩)
    ∧ (fun _ : List Nat => DecompResult.ok [0, 1, 2, 3, 4, 5, 6, 7]) [5]
        = DecompResult.ok [0, 1, 2, 3, 4, 5, 6, 7]
    ∧ bloscParse (.ok smallReq) (some 8) 1000000
        (fun _ => DecompResult.ok [0, 1, 2, 3, 4, 5, 6, 7]) ⟨[5], false⟩
      = (if ([0, 1, 2, 3, 4, 5, 6, 7] : List Nat).length
            = (if smallReq.time_request then
                [smallReq.time.stop - smallReq.time.start, smallReq.z_span,
                  smallReq.y_span, smallReq.x_span]
              else [smallReq.z_span, smallReq.y_span, smallReq.x_span]).prod
        then ParseResult.success smallReq
            ⟨if smallReq.time_request then
                [smallReq.time.stop - smallReq.time.start, smallReq.z_span,
                  smallReq.y_span, smallReq.x_span]
              else [smallReq.z_span, smallReq.y_span, smallReq.x_span],
              [0, 1, 2, 3, 4, 5, 6, 7]⟩
        else ParseResult.error unpackErrMsg ErrorCode.DATA_DIMENSION_MISMATCH,
        ⟨[], false⟩) :=
  ⟨smallReq_not_too_large, rfl, rfl,
    C6_reshape smallReq 8 1000000 _ _ _ _ _ smallReq_not_too_large rfl rfl⟩

/-- C7 (counterexample): a structural decompression failure that is neither a
MemoryError nor an EOFError — e.g. the `zlib.error` raised by
`zlib.decompress` on a corrupt deflate stream — propagates uncaught out of
`NpygzParser.parse` instead of being returned as a PayloadCorrupt error: the
claim that no such failure ever escapes `parse` is false. -/
theorem C7_counterexample :
    (npygzParse (.ok smallReq) (some 8) 1000000 (fun _ => .err) ⟨[9], false⟩).1
      = ParseResult.uncaught := by
  simp [npygzParse, smallReq_not_too_large, streamRead]

/-- C7 (amended): `BloscParser.parse` returns every non-MemoryError
decompression failure as the PayloadCorrupt-category error whose message
advises checking the declared datatype; `BloscPythonParser.parse` and
`NpygzParser.parse` do so only for EOFError, and any other structural failure
propagates uncaught out of `parse`. -/
theorem C7_amended (req : BossReq) (bd : Nat) (m : ℚ)
    (decomp : List Nat → DecompResult)
    (unpackA unpackB unpackC unpackD : List Nat → UnpackResult)
    (s s1 : ReqStream) (bytes : List Nat)
    (hlarge : is_too_large req bd m = false)
    (hread : streamRead s = some (bytes, s1))
    (hdec : decomp bytes = DecompResult.err)
    (hA : unpackA bytes = UnpackResult.eofErr)
    (hB : unpackB bytes = UnpackResult.err)
    (hC : unpackC bytes = UnpackResult.eofErr)
    (hD : unpackD bytes = UnpackResult.err) :
    bloscParse (.ok req) (some bd) m decomp s
        = (.error corruptMsg .DATATYPE_DOES_NOT_MATCH, s1)
    ∧ bloscPythonParse (.ok req) (some bd) m unpackA s
        = (.error unpackErrMsg .DATA_DIMENSION_MISMATCH, s1)
    ∧ (bloscPythonParse (.ok req) (some bd) m unpackB s).1 = ParseResult.uncaught
    ∧ npygzParse (.ok req) (some bd) m unpackC s
        = (.error unpackErrMsg .DATA_DIMENSION_MISMATCH, s1)
    ∧ (npygzParse (.ok req) (some bd) m unpackD s).1 = ParseResult.uncaught := by
  refine ⟨?_, ?_, ?_, ?_, ?_⟩ <;>
    simp [bloscParse, bloscPythonParse, npygzParse, hlarge, hread, hdec, hA, hB, hC, hD]

/-- C7 (witness): the amended theorem applied to concrete oracles for each
failure kind. -/
theorem C7_witness :
    is_too_large smallReq 8 1000000 = false
    ∧ streamRead ⟨[9], false⟩ = some ([9], ⟨[], false⟩)
    ∧ (bloscParse (.ok smallReq) (some 8) 1000000 (fun _ => .err) ⟨[9], false⟩
          = (.error corruptMsg .DATATYPE_DOES_NOT_MATCH, ⟨[], false⟩)
      ∧ bloscPythonParse (.ok smallReq) (some 8) 1000000 (fun _ => .eofErr) ⟨[9], false⟩
          = (.error unpackErrMsg .DATA_DIMENSION_MISMATCH, ⟨[], false⟩)
      ∧ (bloscPythonParse (.ok smallReq) (some 8) 1000000 (fun _ => .err)
          ⟨[9], false⟩).1 = ParseResult.uncaught
      ∧ npygzParse (.ok smallReq) (some 8) 1000000 (fun _ => .eofErr) ⟨[9], false⟩
          = (.error unpackErrMsg .DATA_DIMENSION_MISMATCH, ⟨[], false⟩)
      ∧ (npygzParse (.ok smallReq) (some 8) 1000000 (fun _ => .err)
          ⟨[9], false⟩).1 = ParseResult.uncaught) :=
  ⟨smallReq_not_too_large, rfl,
    C7_amended smallReq 8 1000000 (fun _ => .err) (fun _ => .eofErr) (fun _ => .err)
      (fun _ => .eofErr) (fun _ => .err) ⟨[9], false⟩ ⟨[], false⟩ [9]
      smallReq_not_too_large rfl rfl rfl rfl rfl rfl⟩

/-- An array whose self-described shape [5] disagrees with every reshape of a
2*2*2 request. -/
def weirdArr : NDArray := ⟨[5], [1, 2, 3, 4, 5]⟩

/-- C8 (counterexample): `BloscPythonParser.parse` returns the array produced
by `blosc.unpack_array` as a success, with no validation at all against the
request: here the decoded array has shape [5] although the request's target
shape is (2, 2, 2), and it is returned rather than rejected. -/
theorem C8_counterexample :
    (bloscPythonParse (.ok smallReq) (some 8) 1000000 (fun _ => .ok weirdArr)
        ⟨[0], false⟩).1
      = ParseResult.success smallReq weirdArr
    ∧ weirdArr.shape ≠ target_dims smallReq := by
  constructor
  · simp [bloscPythonParse, smallReq_not_too_large, streamRead]
  · decide

/-- C8 (amended): on the self-describing decode paths the embedded array is
returned exactly as unpacked: whatever its shape and element type,
`BloscPythonParser.parse` and `NpygzParser.parse` return it as a success
without comparing it to the request's spans or the resource's datatype. -/
theorem C8_amended (req : BossReq) (bd : Nat) (m : ℚ)
    (unpack1 unpack2 : List Nat → UnpackResult) (s s1 : ReqStream)
    (bytes : List Nat) (arr1 arr2 : NDArray)
    (hlarge : is_too_large req bd m = false)
    (hread : streamRead s = some (bytes, s1))
    (h1 : unpack1 bytes = UnpackResult.ok arr1)
    (h2 : unpack2 bytes = UnpackResult.ok arr2) :
    bloscPythonParse (.ok req) (some bd) m unpack1 s = (ParseResult.success req arr1, s1)
    ∧ npygzParse (.ok req) (some bd) m unpack2 s = (ParseResult.success req arr2, s1) := by
  constructor <;> simp [bloscPythonParse, npygzParse, hlarge, hread, h1, h2]

/-- C8 (witness): the amended theorem applied to the shape-[5] array against
the 2*2*2 request. -/
theorem C8_witness :
    is_too_large smallReq 8 1000000 = false
    ∧ streamRead ⟨[0], false⟩ = some ([0], ⟨[], false⟩)
    ∧ (bloscPythonParse (.ok smallReq) (some 8) 1000000 (fun _ => .ok weirdArr)
          ⟨[0], false⟩ = (ParseResult.success smallReq weirdArr, ⟨[], false⟩)
      ∧ npygzParse (.ok smallReq) (some 8) 1000000 (fun _ => .ok weirdArr)
          ⟨[0], false⟩ = (ParseResult.success smallReq weirdArr, ⟨[], false⟩)) :=
  ⟨smallReq_not_too_large, rfl,
    C8_amended smallReq 8 1000000 (fun _ => .ok weirdArr) (fun _ => .ok weirdArr)
      ⟨[0], false⟩ ⟨[], false⟩ [0] weirdArr weirdArr
      smallReq_not_too_large rfl rfl rfl⟩

/-- C9: `is_too_large` returns true exactly when
`x_span * y_span * z_span * t_span * bit_depth / 8`, divided by a further
factor of 4 precisely when the bit depth is 64 (and by 1 — no relaxation —
for every other bit depth), exceeds the configured ceiling. -/
theorem C9_is_too_large_iff (req : BossReq) (bd : Nat) (m : ℚ) :
    is_too_large req bd m = true ↔
      ((req.x_span : ℚ) * (req.y_span : ℚ) * (req.z_span : ℚ) *
            ((req.time.stop - req.time.start : Nat) : ℚ) * (bd : ℚ) / 8)
          / (if bd = 64 then 4 else 1) > m := by
  unfold is_too_large
  by_cases h64 : bd = 64
  · subst h64
    simp [decide_eq_true_eq]
  · have hb : (bd == 64) = false := by simpa using h64
    simp [hb, decide_eq_true_eq, h64]

end Boss
